import Mathlib

/-!
Shallow embedding of `tin2tin/fcpxml_import` (`src/__init__.py`), a Blender
add-on that parses FCPXML files and places the referenced media on the VSE
timeline.  The embedding follows the source: `FCPXMLParser` (XML walking and
field extraction), `MediaResolver` (filename cache and path resolution),
`FCPXMLImporter` (scene configuration and strip placement) and the operator
`SEQUENCER_OT_import_fcpxml.execute`.

Python exceptions that the source can raise and does not catch are modelled
explicitly (`PyError`); the filesystem walk feeding the resolver cache is
modelled as the ordered list of (filename, full path) pairs that `os.walk`
yields, and `os.path.normcase` is kept as a parameter because its behaviour
is platform dependent (identity on POSIX, case folding plus separator
swapping on Windows).
-/

/-- Python exceptions relevant to this module: `AttributeError` (attribute
access on `None`, e.g. `find(...).text` when `find` returned `None`),
`ValueError` (`int()` on a non-numeric string) and `TypeError`
(`os.path.basename(None)`). -/
inductive PyError : Type where
  | attributeError : PyError
  | valueError : PyError
  | typeError : PyError
deriving DecidableEq, Repr

/-- Does the character list `needle` occur at the head of `hay`? -/
def clStartsWith : List Char → List Char → Bool
  | [], _ => true
  | _ :: _, [] => false
  | n :: ns, h :: hs => n == h && clStartsWith ns hs

/-- Does the character list `needle` occur contiguously anywhere in `hay`?
The empty needle occurs in every list, as for Python's `in` on `str`. -/
def clContains (needle : List Char) : List Char → Bool
  | [] => clStartsWith needle []
  | h :: hs => clStartsWith needle (h :: hs) || clContains needle hs

/-- Python's substring test `needle in haystack` on `str` values. -/
def pyIn (needle haystack : String) : Bool :=
  clContains needle.data haystack.data

/-- `os.path.basename`, POSIX flavour: the part of the path after the last
slash (the inputs exercised by the source use forward slashes). -/
def os_path_basename (p : String) : String :=
  String.mk ((p.data.reverse.takeWhile (fun c => c != '/')).reverse)

/-- `os.path.normcase` on POSIX: the identity function. -/
def normcasePosix : String → String := fun s => s

/-- `os.path.normcase` on Windows: lower-case every character and replace
forward slashes with backslashes. -/
def normcaseWindows (s : String) : String :=
  String.mk (s.data.map (fun c => if c == '/' then '\\' else Char.toLower c))

/-- Numeric value of a list of decimal digits. -/
def digitsToNat (ds : List Char) : Nat :=
  ds.foldl (fun a c => 10 * a + (c.toNat - '0'.toNat)) 0

/-- Model of Python `int(s)` on a string: surrounding whitespace is stripped,
an optional sign is allowed, and the remainder must be a non-empty run of
decimal digits, otherwise `ValueError` (modelled as `none`).  Digit-group
underscores are not modelled; no input in this development uses them. -/
def pyIntOfString (s : String) : Option Int :=
  let cs := ((s.data.dropWhile Char.isWhitespace).reverse.dropWhile Char.isWhitespace).reverse
  match cs with
  | [] => none
  | '-' :: ds =>
      if !ds.isEmpty && ds.all Char.isDigit then some (-(digitsToNat ds : Int)) else none
  | '+' :: ds =>
      if !ds.isEmpty && ds.all Char.isDigit then some ((digitsToNat ds : Int)) else none
  | ds =>
      if ds.all Char.isDigit then some ((digitsToNat ds : Int)) else none

/-- An XML element as `xml.etree.ElementTree` presents it to this add-on:
a tag, optional text, and child elements (attributes are never read by the
source, so they are not modelled). -/
inductive Elem : Type where
  | node (tag : String) (text : Option String) (children : List Elem)

/-- The element's tag. -/
def Elem.tag : Elem → String
  | .node t _ _ => t

/-- The element's text (`None` is `none`). -/
def Elem.text : Elem → Option String
  | .node _ x _ => x

/-- The element's direct children, in document order. -/
def Elem.children : Elem → List Elem
  | .node _ _ c => c

mutual
/-- All proper descendants of an element in document (preorder) order; the
element itself is not included, matching ElementTree's `.//` axis. -/
def Elem.descendants : Elem → List Elem
  | .node _ _ cs => descendantsOfList cs

/-- Preorder listing of a forest: each root followed by its descendants. -/
def descendantsOfList : List Elem → List Elem
  | [] => []
  | c :: cs => c :: (Elem.descendants c ++ descendantsOfList cs)
end

/-- `element.findall(tag)`: the direct children with the given tag, in
document order. -/
def findallChild (e : Elem) (t : String) : List Elem :=
  e.children.filter (fun c => c.tag == t)

/-- `element.find(tag)`: the first direct child with the given tag. -/
def findChild (e : Elem) (t : String) : Option Elem :=
  (findallChild e t).head?

/-- `element.findall(".//tag")`: all proper descendants with the given tag,
in document order (ElementTree does not match the element itself). -/
def findallDesc (e : Elem) (t : String) : List Elem :=
  (Elem.descendants e).filter (fun c => c.tag == t)

/-- `element.find("t1/t2")`: the first `t2` child of a `t1` child, scanning
`t1` children in document order. -/
def findChildPath (e : Elem) (t1 t2 : String) : Option Elem :=
  ((findallChild e t1).flatMap (fun a => findallChild a t2)).head?

/-- `element.find(".//t1/t2")`: the first `t2` child of a descendant `t1`,
scanning descendants in document order. -/
def findDescChild (e : Elem) (t1 t2 : String) : Option Elem :=
  ((findallDesc e t1).flatMap (fun a => findallChild a t2)).head?

/-- The source idiom `int(element.find(path).text or default)` applied to
the result of the `find`: when `find` returned `None`, accessing `.text`
raises `AttributeError`; when the text is `None` or the empty string (both
falsy), `int(default)` is the default itself; otherwise `int()` parses the
text and raises `ValueError` on failure. -/
def intOfTextOr : Option Elem → Int → Except PyError Int
  | none, _ => .error .attributeError
  | some e, d =>
    match e.text with
    | none => .ok d
    | some s =>
      if s = "" then .ok d
      else
        match pyIntOfString s with
        | some n => .ok n
        | none => .error .valueError

/-- Whether a clip is placed as a movie or a sound strip; the source stores
the strings "video" / "audio" in the clip dictionary. -/
inductive ClipKind : Type where
  | video : ClipKind
  | audio : ClipKind
deriving DecidableEq, Repr

/-- The dictionary built by `FCPXMLParser._extract_clip_data`.  `name` and
`file_path` are `Option String` because the corresponding Python values can
be `None` (an element present with no text); `end_frame` carries the dict
key "end" (a reserved word in Lean). -/
structure ClipData : Type where
  type : ClipKind
  name : Option String
  start : Int
  end_frame : Int
  in_frame : Int
  out_frame : Int
  file_path : Option String
deriving DecidableEq, Repr

/-- One entry of the "tracks" list: a dictionary holding the track's clips. -/
structure Track : Type where
  clips : List ClipData
deriving DecidableEq, Repr

/-- The dictionary built by `FCPXMLParser._extract_sequence_data`. -/
structure SeqData : Type where
  name : Option String
  duration : Int
  rate : Int
  width : Int
  height : Int
  tracks : List Track
deriving DecidableEq, Repr

/-- Outcome of `FCPXMLParser.parse`: the sequence list it returns together
with whether the `except ET.ParseError` branch logged a parse error. -/
structure ParseResult : Type where
  sequences : List SeqData
  parseErrorLogged : Bool
deriving DecidableEq, Repr

/-- The Python loop `for x in xs: ys.append(f(x))` under exceptions: stops
at the first element on which `f` raises, propagating that error. -/
def exceptMap {α β : Type} (f : α → Except PyError β) : List α → Except PyError (List β)
  | [] => Except.ok []
  | a :: as =>
    match f a with
    | .error e => .error e
    | .ok b =>
      match exceptMap f as with
      | .error e => .error e
      | .ok bs => .ok (b :: bs)

/-- `FCPXMLParser._extract_clip_data`.  The numeric fields follow the
source's `int(clip.find(...).text or 0)` pattern in source order (start,
end, in, out); `type`, `name` and `file_path` cannot raise and are filled
in the final dictionary. -/
def FCPXMLParser.extract_clip_data (clip : Elem) : Except PyError ClipData :=
  match intOfTextOr (findChild clip "start") 0 with
  | .error e => .error e
  | .ok s =>
    match intOfTextOr (findChild clip "end") 0 with
    | .error e => .error e
    | .ok en =>
      match intOfTextOr (findChild clip "in") 0 with
      | .error e => .error e
      | .ok i =>
        match intOfTextOr (findChild clip "out") 0 with
        | .error e => .error e
        | .ok o =>
          .ok
            { type :=
                if (findDescChild clip "media" "video").isSome then ClipKind.video
                else ClipKind.audio
              name :=
                match findChild clip "name" with
                | some n => n.text
                | none => some "Unnamed Clip"
              start := s
              end_frame := en
              in_frame := i
              out_frame := o
              file_path :=
                match findDescChild clip "file" "pathurl" with
                | some n => n.text
                | none => some "" }

/-- `FCPXMLParser._extract_sequence_data` for one track element. -/
def FCPXMLParser.extract_track (tr : Elem) : Except PyError Track :=
  match exceptMap FCPXMLParser.extract_clip_data (findallChild tr "clipitem") with
  | .error e => .error e
  | .ok clips => .ok ⟨clips⟩

/-- `FCPXMLParser._extract_sequence_data`: name is guarded against an absent
node (defaulting to "Unnamed Sequence"), the numeric fields use the
unguarded `int(sequence.find(...).text or default)` pattern, and tracks are
collected from every descendant `track` element. -/
def FCPXMLParser.extract_sequence_data (sequence : Elem) : Except PyError SeqData :=
  match intOfTextOr (findChild sequence "duration") 0 with
  | .error e => .error e
  | .ok duration =>
    match intOfTextOr (findChildPath sequence "rate" "timebase") 30 with
    | .error e => .error e
    | .ok rate =>
      match intOfTextOr (findDescChild sequence "samplecharacteristics" "width") 1920 with
      | .error e => .error e
      | .ok width =>
        match intOfTextOr (findDescChild sequence "samplecharacteristics" "height") 1080 with
        | .error e => .error e
        | .ok height =>
          match exceptMap FCPXMLParser.extract_track (findallDesc sequence "track") with
          | .error e => .error e
          | .ok tracks =>
            .ok
              { name :=
                  match findChild sequence "name" with
                  | some n => n.text
                  | none => some "Unnamed Sequence"
                duration := duration
                rate := rate
                width := width
                height := height
                tracks := tracks }

/-- `FCPXMLParser.parse`.  The input models the outcome of
`ET.parse(filepath)`: `.error msg` is a raised `ET.ParseError` (the input
was not well-formed XML), which the source catches, logs and turns into an
empty list; `.ok root` is the parsed tree, from which one sequence is
extracted per `root.findall(".//sequence")` hit, in document order.  Any
error raised during extraction is not caught and propagates. -/
def FCPXMLParser.parse (input : Except String Elem) : Except PyError ParseResult :=
  match input with
  | .error _ => .ok ⟨[], true⟩
  | .ok root =>
    match exceptMap FCPXMLParser.extract_sequence_data (findallDesc root "sequence") with
    | .error e => .error e
    | .ok seqs => .ok ⟨seqs, false⟩

/-- Python insertion-ordered dict assignment `d[k] = v`: if the key is
already present its value is replaced in place (keeping its insertion
position); otherwise the pair is appended. -/
def dictInsert (d : List (String × String)) (k v : String) : List (String × String) :=
  if d.any (fun e => e.1 == k) then d.map (fun e => if e.1 == k then (k, v) else e)
  else d ++ [(k, v)]

/-- `MediaResolver._build_file_cache`.  The filesystem is modelled by its
observable trace: for each existing search path, the ordered list of
(filename, normpath-joined full path) pairs that the `os.walk` loops visit
(a nonexistent search path is skipped by the source and contributes no
pairs).  Every filename is keyed by `normcase` (the `nc` parameter); a later
file with the same key overwrites an earlier one. -/
def MediaResolver.build_file_cache (nc : String → String)
    (walks : List (List (String × String))) : List (String × String) :=
  walks.foldl
    (fun cache files => files.foldl (fun cache f => dictInsert cache (nc f.1) f.2) cache) []

/-- `MediaResolver.resolve_media_path`: the case-normalized basename of the
original path is looked up in the cache (Python dict lookup = first match
over the unique keys); failing that, the first cache entry whose key
contains it as a substring is taken; failing that, the empty string is
returned.  No filesystem access occurs. -/
def MediaResolver.resolve_media_path (nc : String → String)
    (cache : List (String × String)) (original_path : String) : String :=
  match cache.find? (fun e => e.1 == nc (os_path_basename original_path)) with
  | some e => e.2
  | none =>
    match cache.find? (fun e => pyIn (nc (os_path_basename original_path)) e.1) with
    | some e => e.2
    | none => ""

/-- The Blender VSE strip as this add-on leaves it: the creation arguments
together with the four frame attributes assigned immediately afterwards in
`FCPXMLImporter.import_sequence`. -/
structure Strip : Type where
  kind : ClipKind
  name : Option String
  filepath : String
  channel : Int
  frame_start : Int
  frame_final_end : Int
  frame_offset_start : Int
  frame_final_duration : Int
deriving DecidableEq, Repr

/-- The scene settings written by `FCPXMLImporter.configure_scene`. -/
structure SceneConfig : Type where
  resolution_x : Int
  resolution_y : Int
  fps : Int
  frame_start : Int
  frame_end : Int
deriving DecidableEq, Repr

/-- `FCPXMLImporter.configure_scene`: scene resolution, fps, frame 1 start
and a frame end of duration times fps. -/
def FCPXMLImporter.configure_scene (width height fps duration : Int) : SceneConfig :=
  ⟨width, height, fps, 1, duration * fps⟩

/-- The strip produced for one resolved clip: channel 2 for video and 1 for
audio (the constants `video_channel, audio_channel = 2, 1`), created at
`frame_start=clip.start` and then mutated so that its final attribute
values are `frame_final_end = start + (out - in)`,
`frame_start = start - in`, `frame_offset_start = start` and
`frame_final_duration = out - in`. -/
def FCPXMLImporter.place_strip (clip : ClipData) (resolved_path : String) : Strip :=
  { kind := clip.type
    name := clip.name
    filepath := resolved_path
    channel := if clip.type = ClipKind.video then 2 else 1
    frame_start := clip.start - clip.in_frame
    frame_final_end := clip.start + (clip.out_frame - clip.in_frame)
    frame_offset_start := clip.start
    frame_final_duration := clip.out_frame - clip.in_frame }

/-- Observable outcome of the clip-placement loop: the strips created so
far, the missing-file list accumulated so far, and the uncaught exception
that stopped the loop, if any (Blender state mutated before the exception
is kept, matching Python semantics). -/
structure ImportOutcome : Type where
  strips : List Strip
  missing : List String
  error : Option PyError
deriving DecidableEq, Repr

/-- The clip loop of `FCPXMLImporter.import_sequence`, over the clips of all
tracks in order.  A clip whose `file_path` is Python `None` makes
`os.path.basename` raise `TypeError`; a clip that resolves to the empty
string is appended to `missing_files` and skipped; otherwise a strip is
created. -/
def FCPXMLImporter.import_clips (nc : String → String) (cache : List (String × String)) :
    List ClipData → ImportOutcome
  | [] => ⟨[], [], none⟩
  | c :: rest =>
    match c.file_path with
    | none => ⟨[], [], some PyError.typeError⟩
    | some p =>
      if MediaResolver.resolve_media_path nc cache p = "" then
        ⟨(FCPXMLImporter.import_clips nc cache rest).strips,
         p :: (FCPXMLImporter.import_clips nc cache rest).missing,
         (FCPXMLImporter.import_clips nc cache rest).error⟩
      else
        ⟨FCPXMLImporter.place_strip c (MediaResolver.resolve_media_path nc cache p) ::
           (FCPXMLImporter.import_clips nc cache rest).strips,
         (FCPXMLImporter.import_clips nc cache rest).missing,
         (FCPXMLImporter.import_clips nc cache rest).error⟩

/-- `FCPXMLImporter.import_sequence`: configure the scene from the sequence
settings, then run the clip loop over every track's clips in document
order, returning the missing-file list (and, in this model, the created
strips and any uncaught error). -/
def FCPXMLImporter.import_sequence (nc : String → String) (cache : List (String × String))
    (s : SeqData) : SceneConfig × ImportOutcome :=
  (FCPXMLImporter.configure_scene s.width s.height s.rate s.duration,
   FCPXMLImporter.import_clips nc cache (s.tracks.flatMap Track.clips))

/-- The per-sequence loop of `SEQUENCER_OT_import_fcpxml.execute`:
`missing_files.extend(...)` over the sequences in order; an uncaught
exception in one sequence stops the loop, keeping what was accumulated. -/
def importAllSequences (nc : String → String) (cache : List (String × String)) :
    List SeqData → ImportOutcome
  | [] => ⟨[], [], none⟩
  | s :: rest =>
    match ((FCPXMLImporter.import_sequence nc cache s).2).error with
    | some e =>
      ⟨((FCPXMLImporter.import_sequence nc cache s).2).strips,
       ((FCPXMLImporter.import_sequence nc cache s).2).missing, some e⟩
    | none =>
      ⟨((FCPXMLImporter.import_sequence nc cache s).2).strips ++
         (importAllSequences nc cache rest).strips,
       ((FCPXMLImporter.import_sequence nc cache s).2).missing ++
         (importAllSequences nc cache rest).missing,
       (importAllSequences nc cache rest).error⟩

/-- `SEQUENCER_OT_import_fcpxml.execute`, after the resolver and parser have
run: the accumulated outcome together with whether the missing-files
warning is reported (it is reported exactly when the loop finished without
an exception and `missing_files` is nonempty). -/
def SEQUENCER_OT_import_fcpxml.execute (nc : String → String)
    (cache : List (String × String)) (seqs : List SeqData) : ImportOutcome × Bool :=
  (importAllSequences nc cache seqs,
   (importAllSequences nc cache seqs).error.isNone &&
     !(importAllSequences nc cache seqs).missing.isEmpty)

/-! ## Helper lemmas -/

/-- A successful `exceptMap` produces one output per input. -/
theorem exceptMap_ok_length {α β : Type} (f : α → Except PyError β) :
    ∀ (l : List α) (bs : List β), exceptMap f l = Except.ok bs → bs.length = l.length := by
  intro l
  induction l with
  | nil =>
    intro bs h
    simp only [exceptMap] at h
    cases h
    rfl
  | cons a as ih =>
    intro bs h
    simp only [exceptMap] at h
    cases hf : f a with
    | error e => rw [hf] at h; cases h
    | ok b =>
      rw [hf] at h
      cases hr : exceptMap f as with
      | error e => rw [hr] at h; cases h
      | ok cs =>
        rw [hr] at h
        cases h
        simp [ih cs hr]

/-- Unfolding of the clip loop at a clip whose `file_path` is a string. -/
theorem import_clips_cons_some (nc : String → String) (cache : List (String × String))
    (c : ClipData) (rest : List ClipData) (p : String) (hp : c.file_path = some p) :
    FCPXMLImporter.import_clips nc cache (c :: rest) =
      if MediaResolver.resolve_media_path nc cache p = "" then
        ⟨(FCPXMLImporter.import_clips nc cache rest).strips,
         p :: (FCPXMLImporter.import_clips nc cache rest).missing,
         (FCPXMLImporter.import_clips nc cache rest).error⟩
      else
        ⟨FCPXMLImporter.place_strip c (MediaResolver.resolve_media_path nc cache p) ::
           (FCPXMLImporter.import_clips nc cache rest).strips,
         (FCPXMLImporter.import_clips nc cache rest).missing,
         (FCPXMLImporter.import_clips nc cache rest).error⟩ := by
  simp only [FCPXMLImporter.import_clips, hp]

/-! ## C1 -/

/-- A sequence element with no children at all: name falls back to
"Unnamed Sequence", but the duration node is absent. -/
def c1seq : Elem := Elem.node "sequence" none []

/-- A well-formed document containing that sequence element. -/
def c1doc : Elem := Elem.node "xmeml" none [c1seq]

/-- C1: a sequence element whose `duration` node is entirely absent does NOT
yield the default 0 — `sequence.find("duration").text` raises
`AttributeError`, and since `parse` only catches `ET.ParseError`, the error
propagates out of `parse` as well.  This evaluates the code at the failing
input. -/
theorem C1_absent_duration_raises :
    FCPXMLParser.extract_sequence_data c1seq = Except.error PyError.attributeError ∧
      FCPXMLParser.parse (Except.ok c1doc) = Except.error PyError.attributeError :=
  ⟨rfl, rfl⟩

/-! ## C2 -/

/-- Resolver cache over a directory containing the single file `a.mov`,
under POSIX `normcase`. -/
def c2cacheP : List (String × String) :=
  MediaResolver.build_file_cache normcasePosix [[("a.mov", "/media/a.mov")]]

/-- The same cache under Windows `normcase`. -/
def c2cacheW : List (String × String) :=
  MediaResolver.build_file_cache normcaseWindows [[("a.mov", "/media/a.mov")]]

/-- C2: the empty raw path is NOT classified Missing: its basename is the
empty string, which is a substring of every cache key, so the fuzzy
fallback returns the first cache entry as a resolved path (on either
platform flavour of `normcase`).  This evaluates the code at the failing
input. -/
theorem C2_empty_path_resolves_to_first_entry :
    MediaResolver.resolve_media_path normcasePosix c2cacheP "" = "/media/a.mov" ∧
      MediaResolver.resolve_media_path normcaseWindows c2cacheW "" = "/media/a.mov" ∧
      MediaResolver.resolve_media_path normcasePosix c2cacheP "" ≠ "" :=
  ⟨rfl, rfl, by decide⟩

/-! ## C8 -/

/-- C8: an input that is not well-formed XML (a raised `ET.ParseError`,
whatever its message) makes `parse` return the empty sequence list with the
parse error reported; no sequence is constructed. -/
theorem C8_malformed_yields_empty_list (msg : String) :
    FCPXMLParser.parse (Except.error msg) = Except.ok ⟨[], true⟩ :=
  rfl

/-! ## C10 -/

/-- C10: every result of `resolve_media_path` is either the empty string or
the path component of some entry of the file cache built at construction
time, and resolution is a pure function of the cache and the raw path
(same input, same cache, same result), for any platform `normcase`. -/
theorem C10_resolve_results_come_from_cache (nc : String → String)
    (cache : List (String × String)) (raw : String) :
    (MediaResolver.resolve_media_path nc cache raw = "" ∨
      ∃ e, e ∈ cache ∧ MediaResolver.resolve_media_path nc cache raw = e.2) ∧
      MediaResolver.resolve_media_path nc cache raw =
        MediaResolver.resolve_media_path nc cache raw := by
  refine ⟨?_, rfl⟩
  unfold MediaResolver.resolve_media_path
  cases h1 : cache.find? (fun e => e.1 == nc (os_path_basename raw)) with
  | some e => exact Or.inr ⟨e, List.mem_of_find?_eq_some h1, rfl⟩
  | none =>
    cases h2 : cache.find? (fun e => pyIn (nc (os_path_basename raw)) e.1) with
    | some e => exact Or.inr ⟨e, List.mem_of_find?_eq_some h2, rfl⟩
    | none => exact Or.inl rfl

/-! ## C3 -/

/-- A clip element with start 5, in 0 and out 20, whose `end` node is wholly
absent from the document. -/
def c3clip : Elem :=
  Elem.node "clipitem" none
    [Elem.node "start" (some "5") [], Elem.node "in" (some "0") [],
     Elem.node "out" (some "20") []]

/-- C3 counterexample: the clip whose `end` node is wholly absent does not
get `timelineEnd = timelineStart + 100` — no clip dictionary is produced at
all, because `clip.find("end").text` raises `AttributeError`. -/
theorem C3_counterexample :
    FCPXMLParser.extract_clip_data c3clip = Except.error PyError.attributeError ∧
      ¬ ∃ c : ClipData, FCPXMLParser.extract_clip_data c3clip = Except.ok c ∧
          c.end_frame = c.start + 100 := by
  refine ⟨rfl, ?_⟩
  rintro ⟨c, hc, -⟩
  rw [show FCPXMLParser.extract_clip_data c3clip = Except.error PyError.attributeError
      from rfl] at hc
  cases hc

/-- C3 amended: a clip element whose `end` node (or whose `out` node) is
wholly absent never yields a parsed clip — extraction raises instead of
defaulting (there is no start+100 fallback and no sourceOut←timelineEnd
fallback in the code; a node that is present with empty text defaults
to 0). -/
theorem C3_absent_end_or_out_fails (e : Elem)
    (h : findChild e "end" = none ∨ findChild e "out" = none) :
    (FCPXMLParser.extract_clip_data e).toOption = none := by
  unfold FCPXMLParser.extract_clip_data
  rcases h with h | h
  · rw [h]
    cases intOfTextOr (findChild e "start") 0 <;>
      simp [intOfTextOr, Except.toOption]
  · rw [h]
    cases intOfTextOr (findChild e "start") 0 <;>
      cases intOfTextOr (findChild e "end") 0 <;>
        cases intOfTextOr (findChild e "in") 0 <;>
          simp [intOfTextOr, Except.toOption]

/-- C3 witness: the amended theorem applied to the concrete clip element. -/
theorem C3_witness : (FCPXMLParser.extract_clip_data c3clip).toOption = none :=
  C3_absent_end_or_out_fails c3clip (Or.inl rfl)

/-! ## C4 -/

/-- A clip referencing the unresolvable raw path "missing.mov". -/
def c4clip : ClipData :=
  { type := ClipKind.video, name := some "Clip", start := 0, end_frame := 100,
    in_frame := 0, out_frame := 100, file_path := some "missing.mov" }

/-- A sequence with one track holding two such clips. -/
def c4seq : SeqData := ⟨some "S", 0, 30, 1920, 1080, [⟨[c4clip, c4clip]⟩]⟩

/-- C4 counterexample: two clips referencing the same unresolvable raw path
produce TWO entries in the final missing report (the source appends to a
plain list; nothing aggregates by raw path). -/
theorem C4_counterexample :
    (SEQUENCER_OT_import_fcpxml.execute normcasePosix [] [c4seq]).1.missing =
        ["missing.mov", "missing.mov"] ∧
      ((SEQUENCER_OT_import_fcpxml.execute normcasePosix [] [c4seq]).1.missing).length ≠ 1 :=
  ⟨rfl, by decide⟩

/-- C4 amended: the missing report contains one entry per clip occurrence
whose raw path fails to resolve, in clip order, duplicates preserved. -/
theorem C4_missing_one_entry_per_clip (nc : String → String)
    (cache : List (String × String)) (clips : List ClipData)
    (h : ∀ c ∈ clips, c.file_path ≠ none) :
    (FCPXMLImporter.import_clips nc cache clips).missing =
      clips.filterMap (fun c => c.file_path.bind (fun p =>
        if MediaResolver.resolve_media_path nc cache p = "" then some p else none)) := by
  induction clips with
  | nil => rfl
  | cons c rest ih =>
    have hc : c.file_path ≠ none := h c (List.mem_cons_self c rest)
    have hrest : ∀ x ∈ rest, x.file_path ≠ none :=
      fun x hx => h x (List.mem_cons_of_mem c hx)
    cases hp : c.file_path with
    | none => exact absurd hp hc
    | some p =>
      rw [import_clips_cons_some nc cache c rest p hp]
      by_cases hr : MediaResolver.resolve_media_path nc cache p = ""
      · simp [hr, List.filterMap_cons, hp, ih hrest]
      · simp [hr, List.filterMap_cons, hp, ih hrest]

/-- C4 witness: the amended theorem applied to the two-clip track; both
occurrences of "missing.mov" appear in the report. -/
theorem C4_witness :
    (FCPXMLImporter.import_clips normcasePosix [] [c4clip, c4clip]).missing =
      [c4clip, c4clip].filterMap (fun c => c.file_path.bind (fun p =>
        if MediaResolver.resolve_media_path normcasePosix [] p = "" then some p else none)) :=
  C4_missing_one_entry_per_clip normcasePosix [] [c4clip, c4clip] (by decide)

/-! ## C5 -/

/-- Cache built under POSIX `normcase` from a tree with the single file
`A.mov`. -/
def c5cache : List (String × String) :=
  MediaResolver.build_file_cache normcasePosix [[("A.mov", "/media/A.mov")]]

/-- C5 counterexample: on POSIX, `os.path.normcase` is the identity, so the
index key keeps its original case and looking the basename up in a
different letter case fails (returns the empty string) while the original
case succeeds — lookup is not case-insensitive. -/
theorem C5_counterexample :
    MediaResolver.resolve_media_path normcasePosix c5cache "a.mov" = "" ∧
      MediaResolver.resolve_media_path normcasePosix c5cache "A.mov" = "/media/A.mov" :=
  ⟨rfl, rfl⟩

/-- C5 amended: on Windows, where `os.path.normcase` case-folds, resolution
is case-insensitive — two raw paths whose normcased basenames agree resolve
to the same result against any cache. -/
theorem C5_windows_lookup_case_insensitive (cache : List (String × String))
    (raw1 raw2 : String)
    (h : normcaseWindows (os_path_basename raw1) = normcaseWindows (os_path_basename raw2)) :
    MediaResolver.resolve_media_path normcaseWindows cache raw1 =
      MediaResolver.resolve_media_path normcaseWindows cache raw2 := by
  unfold MediaResolver.resolve_media_path
  rw [h]

/-- Cache built under Windows `normcase` from a tree with the single file
`Clip.MOV`. -/
def c5cacheW : List (String × String) :=
  MediaResolver.build_file_cache normcaseWindows [[("Clip.MOV", "/media/Clip.MOV")]]

/-- C5 witness: the amended theorem applied to two case variants of the
same basename. -/
theorem C5_witness :
    MediaResolver.resolve_media_path normcaseWindows c5cacheW "CLIP.mov" =
      MediaResolver.resolve_media_path normcaseWindows c5cacheW "clip.mov" :=
  C5_windows_lookup_case_insensitive c5cacheW "CLIP.mov" "clip.mov" rfl

/-! ## C6 -/

/-- C6: for a resolved clip (its raw path is a string that resolves to a
nonempty path), the strip placed for it carries exactly the derived
parameters: `frame_start = timelineStart - sourceIn`,
`frame_final_end = timelineStart + (sourceOut - sourceIn)`,
`frame_offset_start = timelineStart`,
`frame_final_duration = sourceOut - sourceIn`, and channel 2 for video, 1
for audio, regardless of the cache, the platform, or the remaining clips. -/
theorem C6_placement_parameters (nc : String → String) (cache : List (String × String))
    (c : ClipData) (rest : List ClipData) (p : String)
    (hp : c.file_path = some p)
    (hr : MediaResolver.resolve_media_path nc cache p ≠ "") :
    (FCPXMLImporter.import_clips nc cache (c :: rest)).strips =
      { kind := c.type
        name := c.name
        filepath := MediaResolver.resolve_media_path nc cache p
        channel := if c.type = ClipKind.video then 2 else 1
        frame_start := c.start - c.in_frame
        frame_final_end := c.start + (c.out_frame - c.in_frame)
        frame_offset_start := c.start
        frame_final_duration := c.out_frame - c.in_frame } ::
        (FCPXMLImporter.import_clips nc cache rest).strips := by
  rw [import_clips_cons_some nc cache c rest p hp, if_neg hr]
  rfl

/-- The round-trip example clip: `sourceIn=10, sourceOut=110,
timelineStart=500`, referencing `x.mov`. -/
def c6clip : ClipData :=
  { type := ClipKind.video, name := some "C", start := 500, end_frame := 600,
    in_frame := 10, out_frame := 110, file_path := some "x.mov" }

/-- A cache resolving `x.mov`. -/
def c6cache : List (String × String) := [("x.mov", "/media/x.mov")]

/-- C6 witness: the round-trip example yields `placementStart=490`,
`finalDuration=100`, `placementEnd=600` on channel 2. -/
theorem C6_witness :
    (FCPXMLImporter.import_clips normcasePosix c6cache [c6clip]).strips =
      [{ kind := ClipKind.video, name := some "C", filepath := "/media/x.mov",
         channel := 2, frame_start := 490, frame_final_end := 600,
         frame_offset_start := 500, frame_final_duration := 100 }] :=
  C6_placement_parameters normcasePosix c6cache c6clip [] "x.mov" rfl (by decide)

/-! ## C7 -/

/-- A well-formed document whose ROOT element is itself a fully-fielded
sequence node (ElementTree can parse such a document, and extraction of
this element would succeed). -/
def c7root : Elem :=
  Elem.node "sequence" none
    [ Elem.node "name" (some "Root") []
    , Elem.node "duration" (some "50") []
    , Elem.node "rate" none [Elem.node "timebase" (some "24") []]
    , Elem.node "samplecharacteristics" none
        [Elem.node "width" (some "640") [], Elem.node "height" (some "480") []] ]

/-- Claim-side count, following the claim's words: element nodes named
"sequence" at ANY depth of the document, the root element included. -/
def specSequenceNodeCount (root : Elem) : Nat :=
  ((root :: Elem.descendants root).filter (fun e => e.tag == "sequence")).length

/-- C7 counterexample: a document with exactly one sequence node — the root
element itself — yields ZERO parsed sequences, because
`root.findall(".//sequence")` never matches the root. -/
theorem C7_counterexample :
    specSequenceNodeCount c7root = 1 ∧
      FCPXMLParser.parse (Except.ok c7root) = Except.ok ⟨[], false⟩ :=
  ⟨rfl, rfl⟩

/-- C7 amended: one Sequence entry per "sequence" element that is a proper
descendant of the root, in document order with no recursive expansion,
provided field extraction succeeds on each matched element (otherwise the
uncaught extraction error propagates out of parse). -/
theorem C7_one_entry_per_descendant_sequence (root : Elem) (seqs : List SeqData)
    (h : exceptMap FCPXMLParser.extract_sequence_data (findallDesc root "sequence") =
      Except.ok seqs) :
    FCPXMLParser.parse (Except.ok root) = Except.ok ⟨seqs, false⟩ ∧
      seqs.length = (findallDesc root "sequence").length := by
  constructor
  · simp only [FCPXMLParser.parse]
    rw [h]
  · exact exceptMap_ok_length FCPXMLParser.extract_sequence_data
      (findallDesc root "sequence") seqs h

/-- First sequence element of the C7 witness document. -/
def c7seqA : Elem :=
  Elem.node "sequence" none
    [ Elem.node "name" (some "A") []
    , Elem.node "duration" (some "100") []
    , Elem.node "rate" none [Elem.node "timebase" (some "25") []]
    , Elem.node "samplecharacteristics" none
        [Elem.node "width" (some "1280") [], Elem.node "height" (some "720") []] ]

/-- Second sequence element of the C7 witness document, nested one level
deeper. -/
def c7seqB : Elem :=
  Elem.node "sequence" none
    [ Elem.node "name" (some "B") []
    , Elem.node "duration" (some "200") []
    , Elem.node "rate" none [Elem.node "timebase" (some "30") []]
    , Elem.node "samplecharacteristics" none
        [Elem.node "width" (some "1920") [], Elem.node "height" (some "1080") []] ]

/-- A document with two sequence elements at different depths. -/
def c7doc : Elem :=
  Elem.node "xmeml" none [c7seqA, Elem.node "project" none [c7seqB]]

/-- The two sequence dictionaries the parser extracts from `c7doc`. -/
def c7seqs : List SeqData :=
  [⟨some "A", 100, 25, 1280, 720, []⟩, ⟨some "B", 200, 30, 1920, 1080, []⟩]

/-- C7 witness: the amended theorem applied to the two-sequence document,
one entry per descendant sequence node, in document order. -/
theorem C7_witness :
    FCPXMLParser.parse (Except.ok c7doc) = Except.ok ⟨c7seqs, false⟩ ∧
      c7seqs.length = (findallDesc c7doc "sequence").length :=
  C7_one_entry_per_descendant_sequence c7doc c7seqs rfl

/-! ## C9 -/

/-- Cache built under POSIX `normcase` over a tree holding only
`A_clip_A_final.mov`, the file from the claim's example. -/
def c9cacheP : List (String × String) :=
  MediaResolver.build_file_cache normcasePosix
    [[("A_clip_A_final.mov", "/media/A_clip_A_final.mov")]]

/-- The same cache under Windows `normcase`. -/
def c9cacheW : List (String × String) :=
  MediaResolver.build_file_cache normcaseWindows
    [[("A_clip_A_final.mov", "/media/A_clip_A_final.mov")]]

/-- C9 counterexample: the claim's example is wrong on the code —
"clip_A.mov" is NOT a substring of "A_clip_A_final.mov" (the ".mov" of the
needle is interrupted by "_final"), so `footage/clip_A.mov` reports Missing
(empty string), on either platform flavour of `normcase`, instead of
resolving to that file. -/
theorem C9_counterexample :
    MediaResolver.resolve_media_path normcasePosix c9cacheP "footage/clip_A.mov" = "" ∧
      MediaResolver.resolve_media_path normcaseWindows c9cacheW "footage/clip_A.mov" = "" ∧
      ("" : String) ≠ "/media/A_clip_A_final.mov" :=
  ⟨rfl, rfl, by decide⟩

/-- C9 amended: the general fuzzy rule does hold — when the exact lookup of
the normcased basename fails but some cache key contains it as a substring,
resolution returns the path of the first such entry in cache iteration
order. -/
theorem C9_substring_fallback_first_match (nc : String → String)
    (cache : List (String × String)) (raw : String) (kv : String × String)
    (h1 : cache.find? (fun e => e.1 == nc (os_path_basename raw)) = none)
    (h2 : cache.find? (fun e => pyIn (nc (os_path_basename raw)) e.1) = some kv) :
    MediaResolver.resolve_media_path nc cache raw = kv.2 := by
  unfold MediaResolver.resolve_media_path
  rw [h1, h2]

/-- A cache whose second entry's key contains "clip_a.mov" as a substring. -/
def c9cache : List (String × String) :=
  [("other.mp4", "/media/other.mp4"), ("xx_clip_a.mov.bak", "/media/xx_clip_a.mov.bak")]

/-- C9 witness: the amended theorem applied to a raw path with no exact key
but a substring match. -/
theorem C9_witness :
    MediaResolver.resolve_media_path normcasePosix c9cache "dir/clip_a.mov" =
      "/media/xx_clip_a.mov.bak" :=
  C9_substring_fallback_first_match normcasePosix c9cache "dir/clip_a.mov"
    ("xx_clip_a.mov.bak", "/media/xx_clip_a.mov.bak") rfl rfl
